import Mathlib

/-!
Verification of the deflection-computation core of the
Point_and_Distributed_Load_Multimaterial_Cantilever_Calculator repository.

The Python sources (`compute_deflections.py`, `beam_library.py`) are embedded
shallowly below.  Python floats are modelled by exact rational arithmetic
(`ℚ`); the program's numerics are closed-form rational expressions in its
inputs, so every claim about its formulas and control flow is faithfully
expressible over `ℚ`.  The presentation-only steps of the program — the
radians→degrees conversion `np.degrees(θ) = θ·180/π` and the display
rounding `round(x, 4)` / `round(θ_degrees, 6)` — are fixed injective maps
applied after all computation; they are noted where they occur and omitted
from the model, since no claim depends on them.
-/

namespace BeamCalc

/-! ### Deflection kernel (compute_deflections.py, lines 10-58) -/

/-- `y1(x, E1, I, L, w)`: deflection for `0 ≤ x < T`, distributed load
(compute_deflections.py line 14). -/
def y1 (x E1 I L w : ℚ) : ℚ :=
  (-w / (24 * E1 * I)) * (L - x) ^ 4 - (w * L ^ 3) / (6 * E1 * I) * x
    + (w * L ^ 4) / (24 * E1 * I)

/-- `y2(x, E1, E2, I, L, T, w)`: deflection for `T ≤ x ≤ L`, distributed load
(compute_deflections.py lines 20-26), with its five terms and the coupling
coefficient exactly as in the source. -/
def y2 (x E1 E2 I L T w : ℚ) : ℚ :=
  let term1 := (-w) / (24 * E2 * I) * (L - x) ^ 4
  let coefficient := (-w) / (6 * I) * ((L ^ 3 - (L - T) ^ 3) / E1 + (L - T) ^ 3 / E2)
  let term2 := coefficient * x
  let term3 := (w / (24 * E1 * I)) * (L ^ 4 - (L - T) ^ 4 - 4 * L ^ 3 * T)
  let term4 := (w / (24 * E2 * I)) * (L - T) ^ 4
  let term5 := -coefficient * T
  term1 + term2 + term3 + term4 + term5

/-- `theta1(x, E1, I, L, w)`: rotation for `0 ≤ x < T`, distributed load
(compute_deflections.py line 32). -/
def theta1 (x E1 I L w : ℚ) : ℚ :=
  (w / (6 * E1 * I)) * (L - x) ^ 3 - (w * L ^ 3) / (6 * E1 * I)

/-- `theta2(x, E1, E2, I, L, T, w)`: rotation for `T ≤ x ≤ L`, distributed load
(compute_deflections.py lines 38-40). -/
def theta2 (x E1 E2 I L T w : ℚ) : ℚ :=
  let term1 := (w / (6 * E2 * I)) * (L - x) ^ 3
  let coefficient := (-w) / (6 * I) * ((L ^ 3 - (L - T) ^ 3) / E1 + (L - T) ^ 3 / E2)
  term1 + coefficient

/-- The `x < y` return expression of `y_point_load`
(compute_deflections.py line 47). -/
def y_point_load_lt (x P E1 I y : ℚ) : ℚ :=
  (P / (2 * E1 * I)) * (y * x ^ 2 - x ^ 3 / 3)

/-- The `x ≥ y` return expression of `y_point_load`
(compute_deflections.py line 49). -/
def y_point_load_ge (x P E1 I y : ℚ) : ℚ :=
  (P * y ^ 2) / (2 * E1 * I) * (x - y)

/-- `y_point_load(x, P, E1, I, y)` (compute_deflections.py lines 42-49):
dispatches on `x < y`; the parameter `y` is the load position. -/
def y_point_load (x P E1 I y : ℚ) : ℚ :=
  if x < y then y_point_load_lt x P E1 I y else y_point_load_ge x P E1 I y

/-- The `x < y` return expression of `theta_point_load`
(compute_deflections.py line 56). -/
def theta_point_load_lt (x P E1 I y : ℚ) : ℚ :=
  -(P / (E1 * I)) * (y * x - x ^ 2 / 2)

/-- The `x ≥ y` return expression of `theta_point_load`
(compute_deflections.py line 58). -/
def theta_point_load_ge (x P E1 I y : ℚ) : ℚ :=
  -((P * y ^ 2) / (2 * E1 * I))

/-- `theta_point_load(x, P, E1, I, y)` (compute_deflections.py lines 51-58). -/
def theta_point_load (x P E1 I y : ℚ) : ℚ :=
  if x < y then theta_point_load_lt x P E1 I y else theta_point_load_ge x P E1 I y

/-- The per-grid-point deflection dispatch of the distributed-load sweep
(compute_deflections.py lines 135-139): `y1` when `x < T`, else `y2`. -/
def distRowY (x E1 E2 I L T w : ℚ) : ℚ :=
  if x < T then y1 x E1 I L w else y2 x E1 E2 I L T w

/-- The per-grid-point rotation dispatch of the distributed-load sweep
(compute_deflections.py lines 135-140): `theta1` when `x < T`, else `theta2`. -/
def distRowTheta (x E1 E2 I L T w : ℚ) : ℚ :=
  if x < T then theta1 x E1 I L w else theta2 x E1 E2 I L T w

/-! ### The spec's closed-form formulas (spec.md §4.2), for refinement

These definitions follow the spec's words, to be compared with the
source-derived kernel above. -/

/-- Spec §4.2: `y₁(x) = −w/(24·E₁·I)·(L−x)⁴ − w·L³/(6·E₁·I)·x + w·L⁴/(24·E₁·I)`. -/
def specY1 (x E1 I L w : ℚ) : ℚ :=
  -w / (24 * E1 * I) * (L - x) ^ 4 - w * L ^ 3 / (6 * E1 * I) * x
    + w * L ^ 4 / (24 * E1 * I)

/-- Spec §4.2 coupling coefficient
`C = −w/(6·I) · ((L³−(L−T)³)/E₁ + (L−T)³/E₂)`. -/
def specC (E1 E2 I L T w : ℚ) : ℚ :=
  -w / (6 * I) * ((L ^ 3 - (L - T) ^ 3) / E1 + (L - T) ^ 3 / E2)

/-- Spec §4.2:
`y₂(x) = −w/(24·E₂·I)·(L−x)⁴ + C·x + w/(24·E₁·I)·(L⁴−(L−T)⁴−4·L³·T) + w/(24·E₂·I)·(L−T)⁴ − C·T`. -/
def specY2 (x E1 E2 I L T w : ℚ) : ℚ :=
  -w / (24 * E2 * I) * (L - x) ^ 4 + specC E1 E2 I L T w * x
    + w / (24 * E1 * I) * (L ^ 4 - (L - T) ^ 4 - 4 * L ^ 3 * T)
    + w / (24 * E2 * I) * (L - T) ^ 4 - specC E1 E2 I L T w * T

/-- Spec §4.2: `θ₁(x) = w/(6·E₁·I)·(L−x)³ − w·L³/(6·E₁·I)`. -/
def specTheta1 (x E1 I L w : ℚ) : ℚ :=
  w / (6 * E1 * I) * (L - x) ^ 3 - w * L ^ 3 / (6 * E1 * I)

/-- Spec §4.2: `θ₂(x) = w/(6·E₂·I)·(L−x)³ + C`. -/
def specTheta2 (x E1 E2 I L T w : ℚ) : ℚ :=
  w / (6 * E2 * I) * (L - x) ^ 3 + specC E1 E2 I L T w

/-- Spec §4.2 point load: `y(x) = P/(2·E₁·I)·(a·x² − x³/3)` for `x < a`,
`P·a²/(2·E₁·I)·(x − a)` for `x ≥ a`. -/
def specYPoint (x P E1 I a : ℚ) : ℚ :=
  if x < a then P / (2 * E1 * I) * (a * x ^ 2 - x ^ 3 / 3)
  else P * a ^ 2 / (2 * E1 * I) * (x - a)

/-- Spec §4.2 point load: `θ(x) = −P/(E₁·I)·(a·x − x²/2)` for `x < a`,
`−P·a²/(2·E₁·I)` for `x ≥ a`. -/
def specThetaPoint (x P E1 I a : ℚ) : ℚ :=
  if x < a then -(P / (E1 * I)) * (a * x - x ^ 2 / 2)
  else -(P * a ^ 2) / (2 * E1 * I)

/-- C1: the deflection kernel implements the spec's §4.2 closed-form formulas
exactly as given — `y1`, `y2` (with its coupling coefficient `C`), `theta1`,
`theta2` and the point-load pair agree with the spec expressions at every
input — and an evaluation point exactly at `T` (resp. at the load position
`a`) is routed to the `≥` branch in both families. -/
theorem C1_kernel_matches_spec :
    (∀ x E1 I L w : ℚ, y1 x E1 I L w = specY1 x E1 I L w)
    ∧ (∀ x E1 E2 I L T w : ℚ, y2 x E1 E2 I L T w = specY2 x E1 E2 I L T w)
    ∧ (∀ x E1 I L w : ℚ, theta1 x E1 I L w = specTheta1 x E1 I L w)
    ∧ (∀ x E1 E2 I L T w : ℚ, theta2 x E1 E2 I L T w = specTheta2 x E1 E2 I L T w)
    ∧ (∀ x P E1 I a : ℚ, y_point_load x P E1 I a = specYPoint x P E1 I a)
    ∧ (∀ x P E1 I a : ℚ, theta_point_load x P E1 I a = specThetaPoint x P E1 I a)
    ∧ (∀ E1 E2 I L T w : ℚ, distRowY T E1 E2 I L T w = y2 T E1 E2 I L T w)
    ∧ (∀ E1 E2 I L T w : ℚ, distRowTheta T E1 E2 I L T w = theta2 T E1 E2 I L T w)
    ∧ (∀ P E1 I a : ℚ, y_point_load a P E1 I a = y_point_load_ge a P E1 I a)
    ∧ (∀ P E1 I a : ℚ, theta_point_load a P E1 I a = theta_point_load_ge a P E1 I a) := by
  refine ⟨?_, ?_, ?_, ?_, ?_, ?_, ?_, ?_, ?_, ?_⟩
  · intro x E1 I L w; unfold y1 specY1; ring
  · intro x E1 E2 I L T w; unfold y2 specY2 specC; ring
  · intro x E1 I L w; unfold theta1 specTheta1; ring
  · intro x E1 E2 I L T w; unfold theta2 specTheta2 specC; ring
  · intro x P E1 I a
    unfold y_point_load specYPoint y_point_load_lt y_point_load_ge
    split <;> ring
  · intro x P E1 I a
    unfold theta_point_load specThetaPoint theta_point_load_lt theta_point_load_ge
    split <;> ring
  · intro E1 E2 I L T w; unfold distRowY; rw [if_neg (lt_irrefl T)]
  · intro E1 E2 I L T w; unfold distRowTheta; rw [if_neg (lt_irrefl T)]
  · intro P E1 I a; unfold y_point_load; rw [if_neg (lt_irrefl a)]
  · intro P E1 I a; unfold theta_point_load; rw [if_neg (lt_irrefl a)]

/-- C2: for every valid parameter set with `0 < T < L`, the two
distributed-load branches agree exactly at the transition point:
`theta1(T) = theta2(T)` and `y1(T) = y2(T)` over exact arithmetic. -/
theorem C2_distributed_continuity_at_T (E1 E2 I L T w : ℚ)
    (hE1 : 0 < E1) (hE2 : 0 < E2) (hI : 0 < I) (hw : 0 < w)
    (hL : 0 < L) (hT0 : 0 < T) (hTL : T < L) :
    theta1 T E1 I L w = theta2 T E1 E2 I L T w
      ∧ y1 T E1 I L w = y2 T E1 E2 I L T w := by
  have h1 : E1 ≠ 0 := ne_of_gt hE1
  have h2 : E2 ≠ 0 := ne_of_gt hE2
  have h3 : I ≠ 0 := ne_of_gt hI
  constructor
  · unfold theta1 theta2; field_simp; ring
  · unfold y1 y2; field_simp; ring

/-- Witness for C2 at `E1 = 2`, `E2 = 3`, `I = 1`, `L = 2`, `T = 1`, `w = 1`. -/
theorem C2_distributed_continuity_at_T_witness :
    theta1 1 2 1 2 1 = theta2 1 2 3 1 2 1 1 ∧ y1 1 2 1 2 1 = y2 1 2 3 1 2 1 1 :=
  C2_distributed_continuity_at_T 2 3 1 2 1 1 (by norm_num) (by norm_num)
    (by norm_num) (by norm_num) (by norm_num) (by norm_num) (by norm_num)

/-- C3 is false of the code: at `P = 1`, `E1 = 1`, `I = 1`, `a = 1`, the two
branch expressions of `y_point_load` evaluated at `x = a` give `1/3` and `0`
(the `≥` branch omits the constant `P·a³/(3·E₁·I)`), so the deflection jumps
at the load point, contradicting the claim and the code's own comment
"Deflection is continuous across y_load"; the `theta_point_load` branches do
agree there. -/
theorem C3_point_load_deflection_discontinuous :
    y_point_load_lt 1 1 1 1 1 = 1 / 3
    ∧ y_point_load_ge 1 1 1 1 1 = 0
    ∧ y_point_load_lt 1 1 1 1 1 ≠ y_point_load_ge 1 1 1 1 1
    ∧ theta_point_load_lt 1 1 1 1 1 = theta_point_load_ge 1 1 1 1 1
    ∧ y_point_load 1 1 1 1 1 = 0 := by
  refine ⟨?_, ?_, ?_, ?_, ?_⟩ <;>
    norm_num [y_point_load, y_point_load_lt, y_point_load_ge,
      theta_point_load_lt, theta_point_load_ge]

/-- C6: with a single modulus `E1 = E2 = E`, the second distributed-load
branch coincides with the first at every position `x ∈ [0, L]`:
`y2(x, E, E, …) = y1(x, E, …)` and `theta2(x, E, E, …) = theta1(x, E, …)`,
so the piecewise curves have no discontinuity approaching `T`. -/
theorem C6_equal_moduli_branches_coincide (x E I L T w : ℚ)
    (hE : 0 < E) (hI : 0 < I) (hw : 0 < w) (hL : 0 < L)
    (hT0 : 0 < T) (hTL : T < L) (hx0 : 0 ≤ x) (hxL : x ≤ L) :
    y2 x E E I L T w = y1 x E I L w
      ∧ theta2 x E E I L T w = theta1 x E I L w := by
  have h1 : E ≠ 0 := ne_of_gt hE
  have h3 : I ≠ 0 := ne_of_gt hI
  constructor
  · unfold y1 y2; field_simp; ring
  · unfold theta1 theta2; field_simp; ring

/-- Witness for C6 at `x = 1/2`, `E = 2`, `I = 1`, `L = 2`, `T = 1`, `w = 1`. -/
theorem C6_equal_moduli_branches_coincide_witness :
    y2 (1 / 2) 2 2 1 2 1 1 = y1 (1 / 2) 2 1 2 1
      ∧ theta2 (1 / 2) 2 2 1 2 1 1 = theta1 (1 / 2) 2 1 2 1 :=
  C6_equal_moduli_branches_coincide (1 / 2) 2 1 2 1 1 (by norm_num) (by norm_num)
    (by norm_num) (by norm_num) (by norm_num) (by norm_num) (by norm_num) (by norm_num)

/-! ### Catalog data model (beam_library.py, lines 9-33)

The Python `Load` dataclass carries `Optional` fields `w`, `P`, `a`; the
loader (`beam_library.py` lines 61-65) defaults missing numeric fields to
`0.0`, so they are modelled as plain rationals. -/

/-- `Material` (beam_library.py lines 9-12). -/
structure Material where
  name : String
  E : ℚ
deriving DecidableEq

/-- `Beam` (beam_library.py lines 15-20). -/
structure Beam where
  name : String
  length : ℚ
  width : ℚ
  thickness : ℚ
deriving DecidableEq

/-- `Beam.moment_of_inertia` (beam_library.py line 24):
`width * thickness ** 3 / 12`. -/
def Beam.moment_of_inertia (b : Beam) : ℚ :=
  b.width * b.thickness ^ 3 / 12

/-- `Load` (beam_library.py lines 27-33): `load_type` is the raw string the
code dispatches on ("distributed", "point", or anything else). -/
structure Load where
  name : String
  load_type : String
  w : ℚ
  P : ℚ
  a : ℚ
deriving DecidableEq

/-! ### Position grid (compute_deflections.py lines 88, 132, 178) -/

/-- The grid increment, `step = 0.0025` m (compute_deflections.py line 88). -/
def step : ℚ := 0.0025

/-- Exact-arithmetic model of `np.arange(start, stop, d)` for `d > 0`:
`⌈(stop − start)/d⌉` points `start, start + d, start + 2·d, …`. -/
def arange (start stop d : ℚ) : List ℚ :=
  (List.range (Int.toNat ⌈(stop - start) / d⌉)).map (fun (i : ℕ) => start + (i : ℚ) * d)

/-- The sweep's position grid, `np.arange(0, L + step, step)`
(compute_deflections.py lines 132, 178). -/
def gridPoints (L : ℚ) : List ℚ := arange 0 (L + step) step

/-! ### Result rows (compute_deflections.py lines 134-145, 180-191)

A CSV data row.  `theta` is kept in radians: the code applies
`np.degrees` (multiplication by the fixed constant `180/π`) and rounds
`x` to 4 and `θ_degrees` to 6 decimals purely for display
(compute_deflections.py lines 142-145); no claim depends on that
presentation step, and `y` is written unrounded. -/
structure Row where
  beam : String
  load : String
  material1 : String
  material2 : String
  x : ℚ
  y : ℚ
  theta : ℚ
deriving DecidableEq

/-- The rows emitted for one (beam, distributed load) pair: all ordered
material pairs (`itertools.product(materials, repeat=2)`), then all grid
positions (compute_deflections.py lines 127-145). -/
def distributedRows (beamName loadName : String) (materials : List Material)
    (I L T w : ℚ) : List Row :=
  (materials.product materials).flatMap (fun p =>
    (gridPoints L).map (fun x =>
      ⟨beamName, loadName, p.1.name, p.2.name, x,
        distRowY x p.1.E p.2.E I L T w, distRowTheta x p.1.E p.2.E I L T w⟩))

/-- One row of the point-load sweep (compute_deflections.py lines 180-191).
The code binds `E2 = material2.E` and has resolved a transition point `T`,
but both branches of its `if x < y_load` call `y_point_load`/
`theta_point_load` with `E1` only, so `m2.E` and `T` never enter the
computed values; they are kept as parameters to mirror the source. -/
def pointPairRow (beamName loadName : String) (m1 m2 : Material)
    (I P a T x : ℚ) : Row :=
  ⟨beamName, loadName, m1.name, m2.name, x,
    y_point_load x P m1.E I a, theta_point_load x P m1.E I a⟩

/-- The rows emitted for one (beam, point load) pair
(compute_deflections.py lines 172-191). -/
def pointRows (beamName loadName : String) (materials : List Material)
    (I L P a T : ℚ) : List Row :=
  (materials.product materials).flatMap (fun p =>
    (gridPoints L).map (fun x => pointPairRow beamName loadName p.1 p.2 I P a T x))

/-- The θ-curve the Plot Sink draws for one material pairing of a point load
(compute_deflections.py lines 308-320): `theta_point_load` over the grid,
with `material2` bound in the loop but unused. -/
def pointPlotCurve (m1 m2 : Material) (I L P a : ℚ) : List ℚ :=
  (gridPoints L).map (fun x => theta_point_load x P m1.E I a)

/-- C10: for point loads the computed numbers depend on `material1` alone —
changing `material2` and/or the stored transition point `T` leaves every
`x`, `y(x)` and `θ(x)` value unchanged (only the Material2 name column and
curve label can differ), both in tabulation rows and in plotted curves. -/
theorem C10_point_load_ignores_material2_and_T :
    (∀ (bn ln : String) (m1 m2 m2' : Material) (I P a T T' x : ℚ),
        (pointPairRow bn ln m1 m2 I P a T x).x = (pointPairRow bn ln m1 m2' I P a T' x).x
        ∧ (pointPairRow bn ln m1 m2 I P a T x).y = (pointPairRow bn ln m1 m2' I P a T' x).y
        ∧ (pointPairRow bn ln m1 m2 I P a T x).theta
            = (pointPairRow bn ln m1 m2' I P a T' x).theta)
    ∧ (∀ (bn ln : String) (ms : List Material) (I L P a T T' : ℚ),
        pointRows bn ln ms I L P a T = pointRows bn ln ms I L P a T')
    ∧ (∀ (m1 m2 m2' : Material) (I L P a : ℚ),
        pointPlotCurve m1 m2 I L P a = pointPlotCurve m1 m2' I L P a) := by
  exact ⟨fun _ _ _ _ _ _ _ _ _ _ _ => ⟨rfl, rfl, rfl⟩,
    fun _ _ _ _ _ _ _ _ _ => rfl,
    fun _ _ _ _ _ _ _ => rfl⟩

/-! ### The sweep's counts and grid shape (claim C5) -/

lemma step_pos : (0 : ℚ) < step := by norm_num [step]

/-- Exact count of grid points: `np.arange(0, L + step, step)` has
`⌈L/step⌉ + 1` entries when `L > 0`. -/
lemma gridPoints_length (L : ℚ) (hL : 0 < L) :
    (gridPoints L).length = Int.toNat ⌈L / step⌉ + 1 := by
  unfold gridPoints arange
  rw [List.length_map, List.length_range]
  have hs : (step : ℚ) ≠ 0 := ne_of_gt step_pos
  have h1 : (L + step - 0) / step = L / step + 1 := by field_simp
  rw [h1, Int.ceil_add_one]
  have h2 : 0 < ⌈L / step⌉ := Int.ceil_pos.mpr (div_pos hL step_pos)
  omega

/-- The grid is uniform: its `i`-th entry is `i · step`. -/
lemma gridPoints_get (L : ℚ) (i : ℕ) (h : i < (gridPoints L).length) :
    (gridPoints L).get ⟨i, h⟩ = i * step := by
  unfold gridPoints arange at h ⊢
  simp [List.get_eq_getElem, List.getElem_map, List.getElem_range]

/-- The endpoint `L` lies on the grid exactly when `L` is a natural multiple
of the step. -/
lemma gridPoints_mem_iff (L : ℚ) :
    L ∈ gridPoints L ↔ ∃ k : ℕ, L = k * step := by
  unfold gridPoints arange
  simp only [List.mem_map, List.mem_range]
  constructor
  · rintro ⟨i, _, hi⟩
    exact ⟨i, by linarith⟩
  · rintro ⟨k, hk⟩
    have hs : (step : ℚ) ≠ 0 := ne_of_gt step_pos
    refine ⟨k, ?_, by linarith⟩
    have h1 : (L + step - 0) / step = L / step + 1 := by field_simp
    have h2 : L / step = (k : ℚ) := by rw [hk]; field_simp
    rw [h1, h2, Int.ceil_add_one, Int.ceil_natCast]
    omega

/-- Row count for one (beam, distributed load): material pairings times grid
points. -/
lemma distributedRows_length (bn ln : String) (ms : List Material) (I L T w : ℚ) :
    (distributedRows bn ln ms I L T w).length = ms.length ^ 2 * (gridPoints L).length := by
  unfold distributedRows
  rw [List.flatMap_def, List.length_flatten, List.map_map]
  simp only [Function.comp_def, List.length_map]
  rw [List.map_const', List.sum_replicate, smul_eq_mul,
    show ms.product ms = ms ×ˢ ms from rfl, List.length_product]
  ring

lemma ceil_thirteen_fifths : ⌈(13 : ℚ) / 5⌉ = 3 := by
  rw [Int.ceil_eq_iff]
  constructor <;> norm_num

/-- Concrete evaluation of the grid at `L = 1/250 = 0.004`, which is not a
multiple of `0.0025`: the grid is `[0, 0.0025, 0.005]`. -/
lemma gridPoints_at_inexact : gridPoints (1 / 250) = [0, 1 / 400, 1 / 200] := by
  unfold gridPoints arange
  have h1 : ((1 : ℚ) / 250 + step - 0) / step = 13 / 5 := by norm_num [step]
  rw [h1, ceil_thirteen_fifths, show Int.toNat 3 = 3 from rfl]
  norm_num [List.range_succ, step]

/-- C5 as stated is false: for `L = 0.004` (not a multiple of the step) the
grid generated by `np.arange(0, L + step, step)` is `[0, 0.0025, 0.005]` —
it overshoots to `0.005 > L` and never contains the endpoint `L` itself. -/
theorem C5_endpoint_missing_counterexample :
    gridPoints (1 / 250) = [0, 1 / 400, 1 / 200]
    ∧ ((1 : ℚ) / 250) ∉ gridPoints (1 / 250) := by
  refine ⟨gridPoints_at_inexact, ?_⟩
  rw [gridPoints_at_inexact]
  norm_num

/-- C5 amended: the sweep emits exactly `n²` ordered material pairings and
`⌈L/0.0025⌉ + 1` grid rows per pairing on the uniform grid
`0, 0.0025, 2·0.0025, …`; the grid contains the endpoint `L` itself exactly
when `L` is a natural multiple of the step (otherwise the final point is
`0.0025·⌈L/0.0025⌉ > L` and `L` is absent). -/
theorem C5_counts_and_grid (ms : List Material) (bn ln : String) (I L T w : ℚ)
    (i : ℕ) (hi : i < (gridPoints L).length) (hL : 0 < L) :
    (ms.product ms).length = ms.length ^ 2
    ∧ (gridPoints L).length = Int.toNat ⌈L / step⌉ + 1
    ∧ (distributedRows bn ln ms I L T w).length
        = ms.length ^ 2 * (Int.toNat ⌈L / step⌉ + 1)
    ∧ (gridPoints L).get ⟨i, hi⟩ = i * step
    ∧ (L ∈ gridPoints L ↔ ∃ k : ℕ, L = k * step) := by
  refine ⟨?_, gridPoints_length L hL, ?_, gridPoints_get L i hi, gridPoints_mem_iff L⟩
  · rw [show ms.product ms = ms ×ˢ ms from rfl, List.length_product]; ring
  · rw [distributedRows_length, gridPoints_length L hL]

/-- Witness for C5 at one material, `L = 1/100`, first grid index. -/
theorem C5_counts_and_grid_witness :
    (0 : ℚ) < 1 / 100
    ∧ (([⟨"Steel", 2⟩] : List Material).product ([⟨"Steel", 2⟩] : List Material)).length = 1
    ∧ (gridPoints (1 / 100)).length = Int.toNat ⌈(1 : ℚ) / 100 / step⌉ + 1 := by
  have h0 : (0 : ℚ) < 1 / 100 := by norm_num
  have hi : 0 < (gridPoints (1 / 100)).length := by
    rw [gridPoints_length (1 / 100) h0]; omega
  have h := C5_counts_and_grid [⟨"Steel", 2⟩] "B" "DL" 1 (1 / 100) (1 / 200) 1 0 hi h0
  exact ⟨h0, by rw [h.1]; norm_num, h.2.1⟩

/-! ### Transition resolver and tabulation sweep
(compute_deflections.py lines 60-196)

The interactive prompt loop (lines 113-124 and 157-170) keeps consuming
responses until one satisfies `0 < T < L`; responses are modelled as a list
of rationals (a non-numeric response is rejected and re-prompted exactly
like an out-of-range one, so it is dropped from the model), and an
exhausted response list — where the Python loop would block forever —
is modelled as `none`.  The advisory warning for a point-load `T` before
the load position (line 163) is print-only: the value is still accepted
and stored, so the model stores it unconditionally. -/

/-- The `while True` acceptance loop: return the first response satisfying
`0 < T < L` together with the unconsumed remainder. -/
def resolveT (L : ℚ) : List ℚ → Option (ℚ × List ℚ)
  | [] => none
  | t :: rest => if 0 < t ∧ t < L then some (t, rest) else resolveT L rest

/-- `transition_points.setdefault(beam.name, []).append(T)`
(compute_deflections.py lines 119, 165) on an insertion-ordered
association list. -/
def appendT (tp : List (String × List ℚ)) (beamName : String) (t : ℚ) :
    List (String × List ℚ) :=
  match tp with
  | [] => [(beamName, [t])]
  | (n, ts) :: rest =>
    if n = beamName then (n, ts ++ [t]) :: rest else (n, ts) :: appendT rest beamName t

/-- State threaded through the tabulation sweep: unconsumed prompt
responses, the transition-point store, the CSV data rows written so far,
and the (beam, load) pairs for which a transition-point prompt was issued. -/
structure SweepState where
  input : List ℚ
  transition_points : List (String × List ℚ)
  rows : List Row
  prompts : List (String × String)
deriving DecidableEq

/-- One load of the tabulation sweep for a fixed beam
(compute_deflections.py lines 106-193): distributed loads prompt for `T`,
record it and emit their rows; point loads with position outside `(0, L)`
are skipped before any prompt (lines 152-154); other point loads prompt,
record `T` and emit rows; unrecognized kinds are skipped (line 193). -/
def processLoad (materials : List Material) (beam : Beam) (load : Load)
    (st : SweepState) : Option SweepState :=
  let I := beam.moment_of_inertia
  let L := beam.length
  if load.load_type = "distributed" then
    match resolveT L st.input with
    | none => none
    | some (T, rest) =>
      some ⟨rest, appendT st.transition_points beam.name T,
        st.rows ++ distributedRows beam.name load.name materials I L T load.w,
        st.prompts ++ [(beam.name, load.name)]⟩
  else if load.load_type = "point" then
    if 0 < load.a ∧ load.a < L then
      match resolveT L st.input with
      | none => none
      | some (T, rest) =>
        some ⟨rest, appendT st.transition_points beam.name T,
          st.rows ++ pointRows beam.name load.name materials I L load.P load.a T,
          st.prompts ++ [(beam.name, load.name)]⟩
    else some st
  else some st

/-- The sweep over all loads of one beam (compute_deflections.py line 106). -/
def processLoads (materials : List Material) (beam : Beam) :
    List Load → SweepState → Option SweepState
  | [], st => some st
  | l :: rest, st =>
    match processLoad materials beam l st with
    | none => none
    | some st' => processLoads materials beam rest st'

/-- The sweep over all beams (compute_deflections.py line 100). -/
def processBeams (materials : List Material) :
    List Beam → List Load → SweepState → Option SweepState
  | [], _, st => some st
  | b :: bs, loads, st =>
    match processLoads materials b loads st with
    | none => none
    | some st' => processBeams materials bs loads st'

/-- The outcome of `compute_deflections`: whether the output CSV was opened
and written, the data rows, the returned transition-point store and the
prompts issued. -/
structure ComputeResult where
  fileWritten : Bool
  rows : List Row
  transition_points : List (String × List ℚ)
  prompts : List (String × String)
deriving DecidableEq

/-- `compute_deflections(library, output_filename)`
(compute_deflections.py lines 60-196): the three emptiness checks
(beams, then loads, then materials, lines 75-85) return the empty dict
before the output file is opened (line 91); otherwise the full sweep runs
with the CSV open. -/
def compute_deflections (materials : List Material) (beams : List Beam)
    (loads : List Load) (input : List ℚ) : Option ComputeResult :=
  if beams = [] then some ⟨false, [], [], []⟩
  else if loads = [] then some ⟨false, [], [], []⟩
  else if materials = [] then some ⟨false, [], [], []⟩
  else
    match processBeams materials beams loads ⟨input, [], [], []⟩ with
    | none => none
    | some st => some ⟨true, st.rows, st.transition_points, st.prompts⟩

/-! ### Plot phase (compute_deflections.py lines 198-333)

`Ts = transition_points.get(beam.name, [])` (line 228) aliases the stored
list, and `Ts.pop(0)` (lines 236, 287) mutates it in place; the model takes
the beam's stored list, consumes from the front one entry per
distributed-or-point load while nonempty (skipping the load's plot, with no
pop, when the list is empty, and skipping unsupported kinds with no pop),
and writes the remainder back as the beam's entry — exactly the state the
Python dict holds after that beam's loop.  For a beam name absent from the
store, `.get` returns a fresh empty list and the store is untouched. -/

/-- First-match lookup, `transition_points.get(name, [])`. -/
def lookupTs (store : List (String × List ℚ)) (beamName : String) : List ℚ :=
  match store with
  | [] => []
  | (n, ts) :: rest => if n = beamName then ts else lookupTs rest beamName

/-- Replace the (first) entry for `beamName`, if present. -/
def updateTs (store : List (String × List ℚ)) (beamName : String)
    (ts' : List ℚ) : List (String × List ℚ) :=
  match store with
  | [] => []
  | (n, ts) :: rest =>
    if n = beamName then (n, ts') :: rest else (n, ts) :: updateTs rest beamName ts'

/-- The per-load FIFO consumption of one beam's plot loop
(compute_deflections.py lines 231-333): returns the unconsumed remainder of
`Ts` and, per load in order, the transition point its plot used (`none`
when the plot was skipped — empty `Ts`, or unsupported kind).  Note the
point-load branch (lines 283-287) pops with no check that the load position
lies inside the beam. -/
def consumeLoads : List Load → List ℚ → List ℚ × List (String × Option ℚ)
  | [], ts => (ts, [])
  | l :: rest, ts =>
    if l.load_type = "distributed" then
      match ts with
      | [] => let r := consumeLoads rest []
              (r.1, (l.name, none) :: r.2)
      | t :: ts' => let r := consumeLoads rest ts'
                    (r.1, (l.name, some t) :: r.2)
    else if l.load_type = "point" then
      match ts with
      | [] => let r := consumeLoads rest []
              (r.1, (l.name, none) :: r.2)
      | t :: ts' => let r := consumeLoads rest ts'
                    (r.1, (l.name, some t) :: r.2)
    else
      let r := consumeLoads rest ts
      (r.1, (l.name, none) :: r.2)

/-- One beam of the plot phase: alias the stored list, run the load loop,
write back the remainder; emitted assignments are tagged with the beam. -/
def plotBeam (beam : Beam) (loads : List Load) (store : List (String × List ℚ)) :
    List (String × List ℚ) × List (String × String × Option ℚ) :=
  let Ts := lookupTs store beam.name
  let r := consumeLoads loads Ts
  (updateTs store beam.name r.1, r.2.map (fun p => (beam.name, p.1, p.2)))

/-- `plot_deflections(library, transition_points)`
(compute_deflections.py lines 198-333): after the emptiness checks
(beams, loads, materials, lines 208-218) it loops over beams and loads,
returning the final state of the transition-point store and the list of
(beam, load, T-used) assignments. -/
def plot_deflections (materials : List Material) (beams : List Beam)
    (loads : List Load) (store : List (String × List ℚ)) :
    List (String × List ℚ) × List (String × String × Option ℚ) :=
  if beams = [] then (store, [])
  else if loads = [] then (store, [])
  else if materials = [] then (store, [])
  else
    beams.foldl (fun acc b =>
      let r := plotBeam b loads acc.1
      (r.1, acc.2 ++ r.2)) (store, [])

/-- C7: with any of the three catalog sequences empty, `compute_deflections`
returns immediately with an empty transition-point store, writes no output
file, records no transition points and issues no transition-point prompt. -/
theorem C7_empty_catalog_early_return (materials : List Material) (beams : List Beam)
    (loads : List Load) (input : List ℚ)
    (h : beams = [] ∨ loads = [] ∨ materials = []) :
    compute_deflections materials beams loads input = some ⟨false, [], [], []⟩ := by
  rcases h with h | h | h
  · simp [compute_deflections, h]
  · unfold compute_deflections
    by_cases hb : beams = [] <;> simp [hb, h]
  · unfold compute_deflections
    by_cases hb : beams = [] <;> by_cases hl : loads = [] <;> simp [hb, hl, h]

/-- Witness for C7: a catalog with zero loads (and nonempty beams and
materials). -/
theorem C7_empty_catalog_early_return_witness :
    compute_deflections [⟨"Steel", 2⟩] [⟨"B", 10, 1, 1⟩] [] [] = some ⟨false, [], [], []⟩ :=
  C7_empty_catalog_early_return [⟨"Steel", 2⟩] [⟨"B", 10, 1, 1⟩] [] []
    (Or.inr (Or.inl rfl))

/-- C8: a point load with position outside `(0, L)` — and likewise a load of
unrecognized kind — is skipped entirely: the sweep state after the whole
load list equals the state with that load removed (so no rows, no prompt
and no stored transition point come from it), and the remaining loads are
still processed. -/
theorem C8_out_of_range_and_unknown_loads_skipped (materials : List Material)
    (beam : Beam) (l : Load) (rest : List Load) (st : SweepState)
    (h : (l.load_type = "point" ∧ ¬(0 < l.a ∧ l.a < beam.length))
      ∨ (l.load_type ≠ "distributed" ∧ l.load_type ≠ "point")) :
    processLoads materials beam (l :: rest) st = processLoads materials beam rest st := by
  have hstep : processLoad materials beam l st = some st := by
    rcases h with ⟨hp, hr⟩ | ⟨h1, h2⟩
    · simp [processLoad, hp, hr]
    · simp [processLoad, h1, h2]
  simp [processLoads, hstep]

/-- Witness for C8: beam of length 10, point load at `a = 12`. -/
theorem C8_out_of_range_and_unknown_loads_skipped_witness :
    processLoads [] ⟨"B", 10, 3 / 10, 1 / 200⟩ [⟨"PL", "point", 0, 5000, 12⟩]
        ⟨[], [], [], []⟩
      = processLoads [] ⟨"B", 10, 3 / 10, 1 / 200⟩ [] ⟨[], [], [], []⟩ :=
  C8_out_of_range_and_unknown_loads_skipped [] ⟨"B", 10, 3 / 10, 1 / 200⟩
    ⟨"PL", "point", 0, 5000, 12⟩ [] ⟨[], [], [], []⟩
    (Or.inl ⟨rfl, by norm_num⟩)

/-! ### The plot phase's effect on the store (claims C4 and C9) -/

/-- Number of loads of the two supported kinds — each pops one stored
transition point while the beam's list is nonempty. -/
def supportedCount (loads : List Load) : ℕ :=
  (loads.filter (fun l => l.load_type = "distributed" || l.load_type = "point")).length

lemma consumeLoads_fst (loads : List Load) (ts : List ℚ) :
    (consumeLoads loads ts).1 = ts.drop (supportedCount loads) := by
  induction loads generalizing ts with
  | nil => simp [consumeLoads, supportedCount]
  | cons l rest ih =>
    by_cases h1 : l.load_type = "distributed"
    · cases ts with
      | nil => simp [consumeLoads, h1, supportedCount, List.filter_cons, ih]
      | cons t ts' => simp [consumeLoads, h1, supportedCount, List.filter_cons, ih]
    · by_cases h2 : l.load_type = "point"
      · cases ts with
        | nil => simp [consumeLoads, h1, h2, supportedCount, List.filter_cons, ih]
        | cons t ts' => simp [consumeLoads, h1, h2, supportedCount, List.filter_cons, ih]
      · simp [consumeLoads, h1, h2, supportedCount, List.filter_cons, ih]

lemma plotBeam_fst (b : Beam) (loads : List Load) (s : List (String × List ℚ)) :
    (plotBeam b loads s).1
      = updateTs s b.name ((lookupTs s b.name).drop (supportedCount loads)) := by
  simp only [plotBeam, consumeLoads_fst]

lemma updateTs_lookup_self (s : List (String × List ℚ)) (beamName : String) :
    updateTs s beamName (lookupTs s beamName) = s := by
  induction s with
  | nil => rfl
  | cons p rest ih =>
    obtain ⟨n, ts⟩ := p
    by_cases h : n = beamName <;> simp [updateTs, lookupTs, h, ih]

lemma plot_fold_fst (loads : List Load) (beams : List Beam)
    (store : List (String × List ℚ)) (asg : List (String × String × Option ℚ)) :
    (beams.foldl (fun acc b =>
        let r := plotBeam b loads acc.1
        (r.1, acc.2 ++ r.2)) (store, asg)).1
      = beams.foldl (fun s b => (plotBeam b loads s).1) store := by
  induction beams generalizing store asg with
  | nil => rfl
  | cons b bs ih => simp only [List.foldl_cons]; exact ih _ _

lemma foldl_id_of_fix {α β : Type} (f : α → β → α) (hf : ∀ s b, f s b = s)
    (l : List β) (s : α) : l.foldl f s = s := by
  induction l generalizing s with
  | nil => rfl
  | cons b bs ih => rw [List.foldl_cons, hf]; exact ih _

lemma foldl_updateTs_self (loads : List Load) (hzero : supportedCount loads = 0)
    (beams : List Beam) (store : List (String × List ℚ)) :
    beams.foldl (fun s b =>
        updateTs s b.name ((lookupTs s b.name).drop (supportedCount loads))) store
      = store :=
  foldl_id_of_fix _ (fun s b => by rw [hzero, List.drop_zero, updateTs_lookup_self])
    beams store

lemma plot_foldl_pointwise (loads : List Load) (beams : List Beam)
    (store : List (String × List ℚ)) :
    beams.foldl (fun s b => (plotBeam b loads s).1) store
      = beams.foldl (fun s b =>
          updateTs s b.name ((lookupTs s b.name).drop (supportedCount loads))) store := by
  simp only [plotBeam_fst]

/-- C9 is false as stated; what holds instead: `plot_deflections` consumes
the store destructively — with nonempty materials, each beam's entry ends
as its original list with the first `min(length, number of
distributed-or-point loads)` elements popped (nothing else in the store
changes), rather than being left unchanged. -/
theorem C9_plot_consumes_store (materials : List Material) (beams : List Beam)
    (loads : List Load) (store : List (String × List ℚ)) (hm : materials ≠ []) :
    (plot_deflections materials beams loads store).1
      = beams.foldl (fun s b =>
          updateTs s b.name ((lookupTs s b.name).drop (supportedCount loads))) store := by
  unfold plot_deflections
  by_cases hb : beams = []
  · subst hb; simp
  · by_cases hl : loads = []
    · subst hl
      rw [if_neg hb, if_pos rfl]
      exact (foldl_updateTs_self [] rfl beams store).symm
    · rw [if_neg hb, if_neg hl, if_neg hm]
      rw [plot_fold_fst, plot_foldl_pointwise]

/-- Witness for C9's amended statement at one material, one beam, one
distributed load and a one-entry store. -/
theorem C9_plot_consumes_store_witness :
    (plot_deflections [⟨"M", 2⟩] [⟨"B", 1 / 100, 1, 1⟩]
        [⟨"DL", "distributed", 1, 0, 0⟩] [("B", [1 / 200])]).1
      = ([⟨"B", 1 / 100, 1, 1⟩] : List Beam).foldl (fun s b =>
          updateTs s b.name ((lookupTs s b.name).drop
            (supportedCount [⟨"DL", "distributed", 1, 0, 0⟩]))) [("B", [1 / 200])] :=
  C9_plot_consumes_store [⟨"M", 2⟩] [⟨"B", 1 / 100, 1, 1⟩]
    [⟨"DL", "distributed", 1, 0, 0⟩] [("B", [1 / 200])] (by simp)

/-- C9's counterexample: plotting one distributed load against a one-beam
store pops the stored transition point, so the mapping after plotting,
`[("B", [])]`, differs from the mapping before, `[("B", [1/200])]`. -/
theorem C9_store_mutated_counterexample :
    (plot_deflections [⟨"M", 2⟩] [⟨"B", 1 / 100, 1, 1⟩]
        [⟨"DL", "distributed", 1, 0, 0⟩] [("B", [1 / 200])]).1 = [("B", [])]
    ∧ ([("B", [])] : List (String × List ℚ)) ≠ [("B", [1 / 200])] := by
  constructor
  · simp [plot_deflections, plotBeam, consumeLoads, lookupTs, updateTs]
  · simp

/-- C4 fails on the code: with one beam `B` (length `1/100`), a point load
`PL` at `a = 2` (outside `(0, L)`, so skipped by tabulation with no prompt
and no stored `T`) followed by a distributed load `DL` whose accepted
transition point is `1/200`, the tabulation phase stores `[1/200]` for `B`
paired with `("B", "DL")` — but the plot phase, which never re-checks the
point-load position, pops `1/200` for `PL` and leaves `DL`'s plot with no
transition point at all, so the plot for `(B, DL)` does not use the `T`
stored for it. -/
theorem C4_fifo_pairing_desync :
    ((compute_deflections [⟨"M", 2⟩] [⟨"B", 1 / 100, 1, 1⟩]
          [⟨"PL", "point", 0, 1, 2⟩, ⟨"DL", "distributed", 1, 0, 0⟩] [1 / 200]).map
        (fun r => (r.transition_points, r.prompts))
      = some ([("B", [1 / 200])], [("B", "DL")]))
    ∧ (plot_deflections [⟨"M", 2⟩] [⟨"B", 1 / 100, 1, 1⟩]
          [⟨"PL", "point", 0, 1, 2⟩, ⟨"DL", "distributed", 1, 0, 0⟩]
          [("B", [1 / 200])]).2
      = [("B", "PL", some (1 / 200)), ("B", "DL", none)] := by
  have hrange : ¬ ((2 : ℚ) < 100⁻¹) := by norm_num
  have hT : ((200 : ℚ)⁻¹ < 100⁻¹) := by norm_num
  have hT0 : ((0 : ℚ) < 200⁻¹) := by norm_num
  constructor
  · simp [compute_deflections, processBeams, processLoads, processLoad,
      resolveT, appendT, hrange, hT, hT0]
  · simp [plot_deflections, plotBeam, consumeLoads, lookupTs, updateTs]

end BeamCalc
